import Mathlib

/-
Verification of the scheduled-message bot (main.py): a shallow embedding of
the GeminiService HTTP retry logic, the scheduler tick
(send_scheduled_message) and the manual configuration command, together
with theorems settling the specified properties.

Timestamps (Python floats from time.time()) are modeled as integers; the
properties verified depend only on ordering and subtraction of timestamps.
-/

namespace StellarBot

/-- JSON values, as produced by response.json() in Python. -/
inductive Json where
  | null
  | bool (b : Bool)
  | num (n : Int)
  | str (s : String)
  | arr (elems : List Json)
  | obj (fields : List (String × Json))


/-- Whether a JSON value is a string (a Python str). -/
def Json.isStr : Json → Bool
  | .str _ => true
  | _ => false

/-- Python exceptions that can arise inside the try block of
generate_content: aiohttp.ClientError from the transport, IndexError from
list subscripts, AttributeError from .get on a non-dict, TypeError or
KeyError from subscripting non-lists, and any other exception such as a
timeout. Each carries the message that str(e) would render. -/
inductive PyExn where
  | clientError (msg : String)
  | indexError (msg : String)
  | attributeError (msg : String)
  | typeError (msg : String)
  | keyError (msg : String)
  | otherError (msg : String)


/-- The message a Python f-string interpolation of the exception renders. -/
def pyExnMsg : PyExn → String
  | .clientError m => m
  | .indexError m => m
  | .attributeError m => m
  | .typeError m => m
  | .keyError m => m
  | .otherError m => m

/-- Python d.get(key, default): returns the value bound to key, or default
when the key is absent; raises AttributeError when the receiver is not a
dict. -/
def pyGet (v : Json) (key : String) (default : Json) : Except PyExn Json :=
  match v with
  | .obj fields =>
      match fields.lookup key with
      | some w => .ok w
      | none => .ok default
  | _ => .error (.attributeError "object has no attribute get")

/-- Python x[0]: head of a list (IndexError when empty), first character of
a str (IndexError when empty), KeyError on a dict without key 0, TypeError
otherwise. -/
def pyIndex0 (v : Json) : Except PyExn Json :=
  match v with
  | .arr [] => .error (.indexError "list index out of range")
  | .arr (x :: _) => .ok x
  | .str s =>
      match s.data with
      | [] => .error (.indexError "string index out of range")
      | c :: _ => .ok (.str (String.mk [c]))
  | .obj _ => .error (.keyError "0")
  | _ => .error (.typeError "object is not subscriptable")

/-- The field extraction at main.py line 67:
result.get(candidates, [dict()])[0].get(content, dict()).get(parts,
[dict()])[0].get(text, the fixed parse-failure string). Exceptions raised
by any step propagate. -/
def extractText (result : Json) : Except PyExn Json := do
  let candidates ← pyGet result "candidates" (Json.arr [Json.obj []])
  let c0 ← pyIndex0 candidates
  let content ← pyGet c0 "content" (Json.obj [])
  let parts ← pyGet content "parts" (Json.arr [Json.obj []])
  let p0 ← pyIndex0 parts
  pyGet p0 "text" (Json.str "Failed to parse AI response.")

/-- Outcome of one session.post attempt as observed by the code: an HTTP
response with a status code, parsed JSON body and raw text body, or an
exception raised during the attempt (raiseClient for aiohttp.ClientError,
raiseOther for anything else, such as asyncio.TimeoutError on the 20s
per-attempt timeout). A failure of response.json() or response.text() is
likewise an exception raised during the attempt. -/
inductive AttemptOutcome where
  | http (status : Nat) (body : Json) (bodyText : String)
  | raiseClient (msg : String)
  | raiseOther (msg : String)


/-- The for i in range(3) retry loop of generate_content (main.py lines
63-76), recursing over the list of remaining attempt indices (range(3) is
[0, 1, 2]); env gives the outcome of the attempt at each index. Returns
the number of post attempts made, the backoff sleep durations performed in
order (2 ^ i seconds after a 429 at attempt i), and the loop outcome: some
r when an iteration returned a value or raised, none when every iteration
saw a 429 and the loop ran out. -/
def genLoop (env : Nat → AttemptOutcome) : List Nat → Nat × List Nat × Option (Except PyExn Json)
  | [] => (0, [], none)
  | i :: rest =>
      match env i with
      | .http 200 body _ => (1, [], some (extractText body))
      | .http 429 _ _ =>
          let r := genLoop env rest
          (r.1 + 1, 2 ^ i :: r.2.1, r.2.2)
      | .http s _ t =>
          (1, [], some (.ok (.str ("AI API Error (" ++ toString s ++ "): " ++ t))))
      | .raiseClient m => (1, [], some (.error (.clientError m)))
      | .raiseOther m => (1, [], some (.error (.otherError m)))

/-- Shallow embedding of GeminiService.generate_content (main.py lines
40-81). The api_key is None when the environment variable is unset; Python
truthiness makes both None and the empty string take the missing-key early
return. The request payload built at lines 54-57 does not influence the
control flow and is not modeled here (line 55 of the source is moreover an
unterminated string literal); env supplies the outcome of each HTTP
attempt. Returns
the number of post attempts, the backoff sleeps performed, and the result:
ok v when the call returns the value v, error e when an exception e
escapes to the caller. The two except clauses at lines 78-81 catch every
exception arising inside the loop (aiohttp.ClientError first, then any
Exception) and convert it to a message string. -/
def generate_content (api_key : Option String) (_prompt : String)
    (env : Nat → AttemptOutcome) : Nat × List Nat × Except PyExn Json :=
  if api_key = none ∨ api_key = some "" then
    (0, [], .ok (.str "Error: Gemini API key is missing. Cannot generate content."))
  else
    let r := genLoop env [0, 1, 2]
    match r.2.2 with
    | some (.ok v) => (r.1, r.2.1, .ok v)
    | some (.error (.clientError m)) =>
        (r.1, r.2.1, .ok (.str ("Network or API communication error: " ++ m)))
    | some (.error e) =>
        (r.1, r.2.1, .ok (.str ("An unexpected error occurred during AI generation: " ++ pyExnMsg e)))
    | none =>
        (r.1, r.2.1, .ok (.str "AI API failed after multiple retries due to rate limiting or server issues."))

/-- The schedule-state fields of ScheduledMessageBot (main.py lines
93-101): interval and channel of the active schedule (None when no
schedule is set), the static message content, the AI prompt, the mode
(the strings manual or automatic), and the two anti-stacking timestamps.
The scheduled_task handle is not schedule state and is not modeled. -/
structure BotState where
  interval_seconds : Option Int
  channel_id : Option Nat
  message_content : Option String
  ai_prompt : Option String
  mode : Option String
  last_bot_send_time : Int
  last_channel_activity_time : Int
  deriving DecidableEq

/-- Outcome of target_channel.send: success, discord.Forbidden
(permission denied), or any other exception, each caught by the handlers
at main.py lines 172-175. -/
inductive SendResult where
  | success
  | forbidden
  | otherError (msg : String)
  deriving DecidableEq

/-- Per-tick environment of send_scheduled_message: the wall clock read at
the interval guard (line 137) and the one read after a successful send
(line 170), whether self.get_channel finds the configured channel,
whether the module-global GEMINI_API_KEY is truthy, the string the
gemini_service.generate_content call produces if that call is made, and
the outcome of the channel send. -/
structure TickEnv where
  now : Int
  sendNow : Int
  channelFound : Bool
  geminiKeySet : Bool
  genResult : String
  sendResult : SendResult

/-- Observable effects of one tick: the schedule state afterwards, the
payload passed to target_channel.send when the send is reached (the inner
option is the Python value of message_to_send, which is None when
message_content is unset and no generation ran), and whether the AI
generation call was made. -/
structure TickResult where
  state : BotState
  sent : Option (Option String)
  genCalled : Bool

/-- Python truthiness of an optional string: None and the empty string are
falsy. -/
def truthyOptStr : Option String → Bool
  | none => false
  | some s => !(s == "")

/-- Shallow embedding of one iteration of the 60-second task loop
ScheduledMessageBot.send_scheduled_message (main.py lines 130-175):
return if no schedule is configured; return if the interval has not
elapsed since the last bot send; return if the channel has had no
activity since the last bot send (anti-stacking); return if the channel
cannot be resolved; otherwise resolve the message (generating it when
mode is automatic and ai_prompt is truthy, substituting a fixed failure
notice when GEMINI_API_KEY is falsy) and send it, updating
last_bot_send_time only on a successful send. -/
def send_scheduled_message (s : BotState) (env : TickEnv) : TickResult :=
  match s.channel_id, s.interval_seconds with
  | some _, some ivl =>
      if env.now - s.last_bot_send_time < ivl then
        ⟨s, none, false⟩
      else if s.last_channel_activity_time ≤ s.last_bot_send_time then
        ⟨s, none, false⟩
      else if !env.channelFound then
        ⟨s, none, false⟩
      else
        let doGen := (s.mode == some "automatic") && truthyOptStr s.ai_prompt
        let resolved : Option String × Bool :=
          if doGen then
            if !env.geminiKeySet then
              (some "Automatic message generation failed: API Key missing.", false)
            else
              (some env.genResult, true)
          else
            (s.message_content, false)
        match env.sendResult with
        | .success =>
            ⟨{ s with last_bot_send_time := env.sendNow }, some resolved.1, resolved.2⟩
        | _ => ⟨s, some resolved.1, resolved.2⟩
  | _, _ => ⟨s, none, false⟩

/-- Environment of a slash-command invocation: the wall clock and the
channel the interaction was issued in (interaction.channel_id, an
optional id in discord.py). -/
structure CommandEnv where
  now : Int
  channel_id : Option Nat

/-- Shallow embedding of the manual slash command handler
(main.py lines 184-208): reject an interval below one hour with a
user-visible message and no state change; otherwise replace the whole
schedule state (mode manual, the given message, a cleared AI prompt, the
interval converted to seconds, the invoking channel, last_bot_send_time
reset to zero, last_channel_activity_time set to now). The second
component is the rejection reply when validation fails; the acknowledgement
text sent on success is truncated in the source and not modeled. -/
def manual (s : BotState) (message : String) (interval_hours : Int)
    (env : CommandEnv) : BotState × Option String :=
  if interval_hours < 1 then
    (s, some "The interval must be 1 hour or more.")
  else
    ({ interval_seconds := some (interval_hours * 3600),
       channel_id := env.channel_id,
       message_content := some message,
       ai_prompt := none,
       mode := some "manual",
       last_bot_send_time := 0,
       last_channel_activity_time := env.now }, none)

/-- Bodies of a 200 response on which the extraction chain of line 67
traverses without raising and finds no text field: the fields slot of the
innermost object reached has no text key. Used to characterize the
absent-field-path bodies for which the fixed parse-failure default is
actually returned. -/
def partsSlotNoText (fields : List (String × Json)) : Bool :=
  match fields.lookup "parts" with
  | none => true
  | some (.arr (Json.obj f :: _)) => (f.lookup "text").isNone
  | some _ => false

/-- The content slot of the first candidate traverses without raising and
reaches no text field. -/
def contentSlotNoText (c0 : Json) : Bool :=
  match c0 with
  | .obj f =>
      match f.lookup "content" with
      | none => true
      | some (.obj f2) => partsSlotNoText f2
      | some _ => false
  | _ => false

/-- Response bodies on which the extraction chain of line 67 raises no
exception and the text field path is absent, so every lookup falls through
to its default and the final get returns its parse-failure default. -/
def absentTextShape (body : Json) : Bool :=
  match body with
  | .obj fields =>
      match fields.lookup "candidates" with
      | none => true
      | some (.arr (c0 :: _)) => contentSlotNoText c0
      | some _ => false
  | _ => false

/-- C1: on every scheduler tick, if last_channel_activity_time is at or
before last_bot_send_time then the tick is a no-op: no message is sent, no
generation call happens, and no state field changes, regardless of the
elapsed time and of everything else in the environment; the suppression is
re-evaluated each tick and persists until new activity arrives. -/
theorem tick_antistacking (s : BotState) (env : TickEnv)
    (h : s.last_channel_activity_time ≤ s.last_bot_send_time) :
    send_scheduled_message s env = ⟨s, none, false⟩ := by
  cases hc : s.channel_id with
  | none => cases hi : s.interval_seconds <;> simp [send_scheduled_message, hc, hi]
  | some cid =>
      cases hi : s.interval_seconds with
      | none => simp [send_scheduled_message, hc, hi]
      | some ivl =>
          by_cases h1 : env.now - s.last_bot_send_time < ivl <;>
            simp [send_scheduled_message, hc, hi, h1, h]

/-- Witness for C1: a concrete quiet-channel state where the interval has
long elapsed, the channel resolves and the send would succeed, yet the
tick does nothing. -/
theorem tick_antistacking_witness :
    send_scheduled_message
        ⟨some 3600, some 5, some "hello", none, some "manual", 100, 50⟩
        ⟨10000, 10020, true, true, "generated", .success⟩ =
      ⟨⟨some 3600, some 5, some "hello", none, some "manual", 100, 50⟩, none, false⟩ :=
  tick_antistacking _ _ (by decide)

/-- C2: on every scheduler tick with a configured channel and interval, if
the time since the last bot send is below the interval then the tick is a
no-op: nothing is sent and no state field changes, regardless of channel
activity. -/
theorem tick_interval_gate (s : BotState) (env : TickEnv) (cid : Nat) (ivl : Int)
    (hc : s.channel_id = some cid) (hi : s.interval_seconds = some ivl)
    (h : env.now - s.last_bot_send_time < ivl) :
    send_scheduled_message s env = ⟨s, none, false⟩ := by
  simp [send_scheduled_message, hc, hi, h]

/-- Witness for C2: a concrete state with fresh channel activity where the
interval has not yet elapsed, and the tick does nothing. -/
theorem tick_interval_gate_witness :
    send_scheduled_message
        ⟨some 3600, some 5, some "hello", none, some "manual", 100, 900⟩
        ⟨200, 220, true, true, "generated", .success⟩ =
      ⟨⟨some 3600, some 5, some "hello", none, some "manual", 100, 900⟩, none, false⟩ :=
  tick_interval_gate _ _ 5 3600 rfl rfl (by decide)

/-- C7: a tick that reaches the firing step (configured schedule, interval
elapsed, activity after the last send) mutates only last_bot_send_time
among the state fields, setting it to the post-send clock exactly when the
channel resolves and the send succeeds; on resolution failure, permission
denial or any other send failure every field is left unchanged. -/
theorem tick_firing_frame (s : BotState) (env : TickEnv) (cid : Nat) (ivl : Int)
    (hc : s.channel_id = some cid) (hi : s.interval_seconds = some ivl)
    (hT : ¬ env.now - s.last_bot_send_time < ivl)
    (hA : ¬ s.last_channel_activity_time ≤ s.last_bot_send_time) :
    (send_scheduled_message s env).state =
      { s with last_bot_send_time :=
          if env.channelFound = true ∧ env.sendResult = .success then env.sendNow
          else s.last_bot_send_time } := by
  obtain ⟨iv, ch, mc, ap, mo, lb, la⟩ := s
  simp only at hc hi hT hA
  subst hc hi
  cases hf : env.channelFound with
  | false => simp [send_scheduled_message, hT, hA, hf]
  | true =>
      cases hs : env.sendResult <;>
        simp [send_scheduled_message, hT, hA, hf, hs]

/-- Witness for C7: a concrete due-and-active tick whose send succeeds, so
the resulting state is the old one with only last_bot_send_time set to the
post-send clock. -/
theorem tick_firing_frame_witness :
    (send_scheduled_message
        ⟨some 3600, some 5, some "hello", none, some "manual", 100, 200⟩
        ⟨10000, 10020, true, true, "generated", .success⟩).state =
      { (⟨some 3600, some 5, some "hello", none, some "manual", 100, 200⟩ : BotState) with
          last_bot_send_time :=
            if (true : Bool) = true ∧ SendResult.success = SendResult.success then 10020
            else 100 } :=
  tick_firing_frame _ _ 5 3600 rfl rfl (by decide) (by decide)

/-- C10: if a tick reaches the firing step in automatic mode but ai_prompt
is None or the empty string, the generation call is not made (so no
missing-key notice is substituted either) and the tick dispatches the
current message_content verbatim. -/
theorem tick_automatic_empty_prompt (s : BotState) (env : TickEnv) (cid : Nat) (ivl : Int)
    (hc : s.channel_id = some cid) (hi : s.interval_seconds = some ivl)
    (hT : ¬ env.now - s.last_bot_send_time < ivl)
    (hA : ¬ s.last_channel_activity_time ≤ s.last_bot_send_time)
    (hF : env.channelFound = true)
    (_hm : s.mode = some "automatic")
    (hp : s.ai_prompt = none ∨ s.ai_prompt = some "") :
    (send_scheduled_message s env).genCalled = false ∧
      (send_scheduled_message s env).sent = some s.message_content := by
  have hdg : truthyOptStr s.ai_prompt = false := by
    rcases hp with hp | hp <;> simp [truthyOptStr, hp]
  cases hs : env.sendResult <;>
    simp [send_scheduled_message, hc, hi, hT, hA, hF, hdg, hs]

/-- Witness for C10: a concrete automatic-mode state with an empty prompt
and a missing generation key; the tick still sends the stored
message_content verbatim without calling generation. -/
theorem tick_automatic_empty_prompt_witness :
    (send_scheduled_message
        ⟨some 3600, some 5, some "stored content", some "", some "automatic", 100, 200⟩
        ⟨10000, 10020, true, false, "generated", .success⟩).genCalled = false ∧
      (send_scheduled_message
        ⟨some 3600, some 5, some "stored content", some "", some "automatic", 100, 200⟩
        ⟨10000, 10020, true, false, "generated", .success⟩).sent =
        some (some "stored content") :=
  tick_automatic_empty_prompt _ _ 5 3600 rfl rfl (by decide) (by decide) rfl rfl
    (Or.inr rfl)

/-- C8: a successful manual configuration replaces the schedule state
wholesale: manual mode, the given message, ai_prompt cleared, the interval
stored as hours times 3600 seconds, the invoking channel,
last_bot_send_time reset to zero and last_channel_activity_time set to
now. -/
theorem manual_configures (s : BotState) (message : String) (interval_hours : Int)
    (env : CommandEnv) (h : 1 ≤ interval_hours) :
    manual s message interval_hours env =
      ({ interval_seconds := some (interval_hours * 3600),
         channel_id := env.channel_id,
         message_content := some message,
         ai_prompt := none,
         mode := some "manual",
         last_bot_send_time := 0,
         last_channel_activity_time := env.now }, none) := by
  unfold manual
  rw [if_neg (not_lt.mpr h)]

/-- Witness for C8: a concrete two-hour configuration request replacing an
arbitrary prior state. -/
theorem manual_configures_witness :
    manual ⟨some 60, some 9, some "old", some "oldprompt", some "automatic", 5, 6⟩
        "new message" 2 ⟨999, some 7⟩ =
      ({ interval_seconds := some 7200,
         channel_id := some 7,
         message_content := some "new message",
         ai_prompt := none,
         mode := some "manual",
         last_bot_send_time := 0,
         last_channel_activity_time := 999 }, none) :=
  manual_configures _ _ 2 _ (by decide)

/-- C9: the manual command rejects interval_hours below 1 with the
user-visible validation reply and leaves the state untouched; for
interval_hours at least 1 it proceeds, storing the interval in seconds
with no rejection reply. -/
theorem manual_interval_validation (s : BotState) (message : String)
    (interval_hours : Int) (env : CommandEnv) :
    (interval_hours < 1 →
       manual s message interval_hours env =
         (s, some "The interval must be 1 hour or more.")) ∧
    (1 ≤ interval_hours →
       (manual s message interval_hours env).2 = none ∧
       (manual s message interval_hours env).1.interval_seconds =
         some (interval_hours * 3600)) := by
  constructor
  · intro h
    unfold manual
    rw [if_pos h]
  · intro h
    unfold manual
    rw [if_neg (not_lt.mpr h)]
    exact ⟨rfl, rfl⟩

/-- Witness for C9: a concrete zero-hour request is rejected with the
validation reply and the prior state intact, while a one-hour request
proceeds. -/
theorem manual_interval_validation_witness :
    (manual ⟨some 60, some 9, some "old", none, some "manual", 5, 6⟩ "msg" 0 ⟨999, some 7⟩ =
      (⟨some 60, some 9, some "old", none, some "manual", 5, 6⟩,
        some "The interval must be 1 hour or more.")) ∧
    (manual ⟨some 60, some 9, some "old", none, some "manual", 5, 6⟩ "msg" 1 ⟨999, some 7⟩).2 =
      none :=
  ⟨(manual_interval_validation _ "msg" 0 _).1 (by decide),
   ((manual_interval_validation _ "msg" 1 _).2 (by decide)).1⟩

/-- Bind on Except reduces on an ok value. -/
theorem exceptBind_ok (a : Json) (f : Json → Except PyExn Json) :
    (Except.ok (ε := PyExn) a >>= f) = f a := rfl

/-- Bind on Except propagates an error. -/
theorem exceptBind_error (e : PyExn) (f : Json → Except PyExn Json) :
    (Except.error (α := Json) e >>= f) = Except.error e := rfl

/-- C5: when the first three attempts all return HTTP 429, generate_content
makes exactly three post attempts, sleeps 1, 2 and 4 seconds (2 ^ i after
attempt i), and returns the terminal retry-failure string. -/
theorem generate_content_rate_limited (key p : String) (hk : key ≠ "")
    (env : Nat → AttemptOutcome) (b0 b1 b2 : Json) (t0 t1 t2 : String)
    (h0 : env 0 = .http 429 b0 t0) (h1 : env 1 = .http 429 b1 t1)
    (h2 : env 2 = .http 429 b2 t2) :
    generate_content (some key) p env =
      (3, [1, 2, 4],
        .ok (.str "AI API failed after multiple retries due to rate limiting or server issues.")) := by
  unfold generate_content
  rw [if_neg (by simp [hk])]
  norm_num [genLoop, h0, h1, h2]

/-- Witness for C5: a concrete environment answering 429 to every attempt. -/
theorem generate_content_rate_limited_witness :
    generate_content (some "k") "prompt" (fun _ => .http 429 Json.null "slow down") =
      (3, [1, 2, 4],
        .ok (.str "AI API failed after multiple retries due to rate limiting or server issues.")) :=
  generate_content_rate_limited "k" "prompt" (by decide) _
    Json.null Json.null Json.null "slow down" "slow down" "slow down" rfl rfl rfl

/-- C6 counterexample: a 200 response whose body binds candidates to an
empty list has the text field path absent, yet the call returns the caught
IndexError notice, not the fixed parse-failure string. -/
theorem parse_failure_counterexample :
    (generate_content (some "k") "p"
        (fun _ => .http 200 (Json.obj [("candidates", Json.arr [])]) "")).2.2 =
      Except.ok (Json.str
        "An unexpected error occurred during AI generation: list index out of range") ∧
    "An unexpected error occurred during AI generation: list index out of range" ≠
      "Failed to parse AI response." :=
  ⟨rfl, by decide⟩

/-- Any body of the absent-text shape makes the extraction chain of line
67 return the parse-failure default without raising. -/
theorem extractText_absent (body : Json) (hb : absentTextShape body = true) :
    extractText body = .ok (.str "Failed to parse AI response.") := by
  cases body with
  | obj fields =>
      simp only [absentTextShape] at hb
      cases hcand : fields.lookup "candidates" with
      | none =>
          simp [extractText, pyGet, pyIndex0, hcand, exceptBind_ok]
      | some cv =>
          rw [hcand] at hb
          cases cv with
          | arr elems =>
              cases elems with
              | nil => simp [contentSlotNoText, partsSlotNoText] at hb
              | cons c0 rest =>
                  cases c0 with
                  | obj f =>
                      simp only [contentSlotNoText] at hb
                      cases hcont : f.lookup "content" with
                      | none =>
                          simp [extractText, pyGet, pyIndex0, hcand, hcont, exceptBind_ok]
                      | some cc =>
                          rw [hcont] at hb
                          cases cc with
                          | obj f2 =>
                              simp only [partsSlotNoText] at hb
                              cases hparts : f2.lookup "parts" with
                              | none =>
                                  simp [extractText, pyGet, pyIndex0, hcand, hcont, hparts,
                                    exceptBind_ok]
                              | some pv =>
                                  rw [hparts] at hb
                                  cases pv with
                                  | arr pelems =>
                                      cases pelems with
                                      | nil => simp [contentSlotNoText, partsSlotNoText] at hb
                                      | cons p0 pr =>
                                          cases p0 with
                                          | obj f3 =>
                                              have htext : f3.lookup "text" = none := by
                                                simpa using hb
                                              simp [extractText, pyGet, pyIndex0, hcand, hcont,
                                                hparts, htext, exceptBind_ok]
                                          | null => simp [contentSlotNoText, partsSlotNoText] at hb
                                          | bool b => simp [contentSlotNoText, partsSlotNoText] at hb
                                          | num n => simp [contentSlotNoText, partsSlotNoText] at hb
                                          | str s => simp [contentSlotNoText, partsSlotNoText] at hb
                                          | arr a => simp [contentSlotNoText, partsSlotNoText] at hb
                                  | null => simp [contentSlotNoText, partsSlotNoText] at hb
                                  | bool b => simp [contentSlotNoText, partsSlotNoText] at hb
                                  | num n => simp [contentSlotNoText, partsSlotNoText] at hb
                                  | str s => simp [contentSlotNoText, partsSlotNoText] at hb
                                  | obj o => simp [contentSlotNoText, partsSlotNoText] at hb
                          | null => simp [contentSlotNoText, partsSlotNoText] at hb
                          | bool b => simp [contentSlotNoText, partsSlotNoText] at hb
                          | num n => simp [contentSlotNoText, partsSlotNoText] at hb
                          | str s => simp [contentSlotNoText, partsSlotNoText] at hb
                          | arr a => simp [contentSlotNoText, partsSlotNoText] at hb
                  | null => simp [contentSlotNoText, partsSlotNoText] at hb
                  | bool b => simp [contentSlotNoText, partsSlotNoText] at hb
                  | num n => simp [contentSlotNoText, partsSlotNoText] at hb
                  | str s => simp [contentSlotNoText, partsSlotNoText] at hb
                  | arr a => simp [contentSlotNoText, partsSlotNoText] at hb
          | null => simp [contentSlotNoText, partsSlotNoText] at hb
          | bool b => simp [contentSlotNoText, partsSlotNoText] at hb
          | num n => simp [contentSlotNoText, partsSlotNoText] at hb
          | str s => simp [contentSlotNoText, partsSlotNoText] at hb
          | obj o => simp [contentSlotNoText, partsSlotNoText] at hb
  | null => simp [absentTextShape] at hb
  | bool b => simp [absentTextShape] at hb
  | num n => simp [absentTextShape] at hb
  | str s => simp [absentTextShape] at hb
  | arr a => simp [absentTextShape] at hb

/-- C6 amended: a 200 response whose body has the text field path absent
returns the fixed parse-failure string without raising, provided the
extraction chain itself does not raise along the way (absent steps fall
through to their defaults); bodies that make a step raise, such as an
empty candidates list, are instead caught and reported as an unexpected
error. -/
theorem parse_failure_amended (key p : String) (hk : key ≠ "")
    (env : Nat → AttemptOutcome) (body : Json) (t : String)
    (h0 : env 0 = .http 200 body t) (hb : absentTextShape body = true) :
    generate_content (some key) p env =
      (1, [], .ok (.str "Failed to parse AI response.")) := by
  unfold generate_content
  rw [if_neg (by simp [hk])]
  simp [genLoop, h0, extractText_absent body hb]

/-- Witness for C6 amended: the empty-object body has the text path absent
and yields the parse-failure string. -/
theorem parse_failure_amended_witness :
    generate_content (some "k") "p" (fun _ => .http 200 (Json.obj []) "") =
      (1, [], .ok (.str "Failed to parse AI response.")) :=
  parse_failure_amended "k" "p" (by decide) _ (Json.obj []) "" rfl rfl

/-- C4 at its failing input: a 200 response carrying a non-string JSON
value at candidates[0].content.parts[0].text is returned verbatim, so the
call yields the integer 42 rather than a string, contradicting the str
return annotation; no exception escapes. -/
theorem generate_content_nonstring_result :
    (generate_content (some "k") "p"
        (fun _ => .http 200
          (Json.obj [("candidates", Json.arr [Json.obj [("content",
            Json.obj [("parts", Json.arr [Json.obj [("text", Json.num 42)]])])]])])
          "")).2.2 = Except.ok (Json.num 42) ∧
      Json.isStr (Json.num 42) = false :=
  ⟨rfl, rfl⟩

end StellarBot
